import Mathlib

/-!
Verification of `roc_netio/udp_sender_port.cpp` (roc-toolkit): a shallow
embedding of the `UdpSenderPort` class.  The port's mutable members become a
`PortState` structure; each method becomes a function from a state (plus an
environment record holding the results of the libuv / syscall calls the method
makes) to an `Outcome`, which records the successor state, the externally
visible events (log lines, syscall attempts, handle-close requests, close
handler invocations) and whether the method hit a `roc_panic`.
-/

namespace RocNetio

/-- Address family of a socket address (`address::Family_IPv4/_IPv6`). -/
inductive AddrFamily
  | ipv4
  | ipv6
deriving DecidableEq, Repr

/-- The part of `address::SocketAddr` the sender port reads: the family and
the native sockaddr length `slen()`. -/
structure SocketAddr where
  family : AddrFamily
  slen : Int
deriving DecidableEq, Repr

/-- `UdpSenderConfig`: bind address plus the two feature flags. -/
structure UdpSenderConfig where
  bind_address : SocketAddr
  broadcast_enabled : Bool
  non_blocking_enabled : Bool
deriving DecidableEq, Repr

/-- The part of `packet::Packet` the sender port reads: whether `pp->udp()`
is non-null, the payload slice `pp->data()` (`none` models a null slice), and
the reference counter. -/
structure Packet where
  hasUdp : Bool
  data : Option (List Int)
  refcount : Int
deriving DecidableEq, Repr

/-- Log levels of `roc_log`. -/
inductive LogLevel
  | error
  | info
  | debug
  | trace
deriving DecidableEq, Repr

/-- The two libuv handles owned by the port: the UDP socket handle `handle_`
and the wakeup handle `write_sem_`. -/
inductive HandleId
  | socket
  | wakeup
deriving DecidableEq, Repr

/-- Externally visible events a method emits, in program order. -/
inductive Event
  | log (lvl : LogLevel) (msg : String)
  | sendtoNbAttempt                       -- the fast path calls sendto_nb()
  | pushQueue                             -- queue_.push_back(*pp)
  | wakeupSignal                          -- uv_async_send(&write_sem_)
  | bindIpv6Only                          -- uv_udp_bind(..., UV_UDP_IPV6ONLY)
  | bindAny                               -- uv_udp_bind(..., 0)
  | uvClose (h : HandleId)                -- uv_close(handle, close_cb_)
  | handlerInvoked                        -- close_handler_->handle_closed(...)
  | incref                                -- pp->incref() in the drain loop
  | statsReport (total : Int) (nb : Int) (ratio : ℚ)
deriving DecidableEq, Repr

/-- Mutable state of a `UdpSenderPort`.  `handle_closing` / `write_sem_closing`
model what `uv_is_closing()` reports for each handle. -/
structure PortState where
  config : UdpSenderConfig
  close_handler_ : Bool                   -- close_handler_ != NULL
  write_sem_initialized_ : Bool
  handle_initialized_ : Bool
  pending_packets_ : Int
  sent_packets_ : Int
  sent_packets_blk_ : Int
  stopped_ : Bool
  closed_ : Bool
  queue_ : List Packet
  handle_closing : Bool
  write_sem_closing : Bool
deriving DecidableEq, Repr

/-- Result of running one method: the optional `roc_panic` message (a panic
aborts the process; the state and events recorded are those reached up to the
panic), the return value, the successor state and the emitted events. -/
structure Outcome (α : Type) where
  panicMsg : Option String
  ret : α
  state : PortState
  events : List Event
deriving Repr

/-- The constructor `UdpSenderPort::UdpSenderPort`: every flag cleared except
`stopped_`, which starts true; counters zero; queue empty. -/
def UdpSenderPort.init (config : UdpSenderConfig) : PortState :=
  { config := config
    close_handler_ := false
    write_sem_initialized_ := false
    handle_initialized_ := false
    pending_packets_ := 0
    sent_packets_ := 0
    sent_packets_blk_ := 0
    stopped_ := true
    closed_ := false
    queue_ := []
    handle_closing := false
    write_sem_closing := false }

/-- `UV_EINVAL` (value taken as a distinct negative code). -/
def UV_EINVAL : Int := -22

/-- `UV_ENOTSUP` (value taken as a distinct negative code). -/
def UV_ENOTSUP : Int := -95

/-- Modelled from the spec: the header declaring the member `address_` read at
the IPv6-only bind guard is not among the sources; per the spec the IPv6-only
bind is attempted "when the address family is IPv6", meaning the configured
bind address, so `address_` is taken to be `config_.bind_address`. -/
def address_ (s : PortState) : SocketAddr :=
  s.config.bind_address

/-- Results of the external calls `open()` makes, in call order. -/
structure OpenEnv where
  uv_async_init_err : Int
  uv_udp_init_err : Int
  bind_ipv6only_err : Int                 -- result of the UV_UDP_IPV6ONLY bind
  bind_any_err : Int                      -- result of the flags=0 bind
  set_broadcast_err : Int
  getsockname_err : Int
  getsockname_len : Int                   -- addrlen written back by getsockname
  uv_fileno_err : Int
deriving DecidableEq, Repr

/-- The bind sequence of `open()`: `bind_err` starts as `UV_EINVAL`; the
IPv6-only bind runs when the family is IPv6; the plain bind runs when
`bind_err` is still `UV_EINVAL` or is `UV_ENOTSUP`.  Returns the final
`bind_err` and the attempted binds as events. -/
def bind_step (fam : AddrFamily) (env : OpenEnv) : Int × List Event :=
  let r1 : Int × List Event :=
    if fam = AddrFamily.ipv6 then (env.bind_ipv6only_err, [Event.bindIpv6Only])
    else (UV_EINVAL, [])
  if r1.1 = UV_EINVAL ∨ r1.1 = UV_ENOTSUP then
    (env.bind_any_err, r1.2 ++ [Event.bindAny])
  else r1

/-- `UdpSenderPort::open`: wakeup init, socket init, bind (with IPv6-only
first attempt), optional broadcast flag, resolved-address read-back with
length check, then descriptor retrieval; every step before the descriptor
retrieval logs and returns false on failure, while a `uv_fileno` failure is a
`roc_panic`; success clears `stopped_` last. -/
def openPort (s : PortState) (env : OpenEnv) : Outcome Bool :=
  if env.uv_async_init_err ≠ 0 then
    { panicMsg := none, ret := false, state := s
      events := [Event.log LogLevel.error "uv_async_init()"] }
  else
    let s1 := { s with write_sem_initialized_ := true }
    if env.uv_udp_init_err ≠ 0 then
      { panicMsg := none, ret := false, state := s1
        events := [Event.log LogLevel.error "uv_udp_init()"] }
    else
      let s2 := { s1 with handle_initialized_ := true }
      let b := bind_step (address_ s2).family env
      if b.1 ≠ 0 then
        { panicMsg := none, ret := false, state := s2
          events := b.2 ++ [Event.log LogLevel.error "uv_udp_bind()"] }
      else
        let ev2 := b.2 ++
          (if s2.config.broadcast_enabled then
            [Event.log LogLevel.debug "setting broadcast flag"] else [])
        if s2.config.broadcast_enabled ∧ env.set_broadcast_err ≠ 0 then
          { panicMsg := none, ret := false, state := s2
            events := ev2 ++ [Event.log LogLevel.error "uv_udp_set_broadcast()"] }
        else if env.getsockname_err ≠ 0 then
          { panicMsg := none, ret := false, state := s2
            events := ev2 ++ [Event.log LogLevel.error "uv_udp_getsockname()"] }
        else if env.getsockname_len ≠ s2.config.bind_address.slen then
          { panicMsg := none, ret := false, state := s2
            events := ev2 ++
              [Event.log LogLevel.error "uv_udp_getsockname(): unexpected len"] }
        else if env.uv_fileno_err ≠ 0 then
          { panicMsg := some "udp sender: uv_fileno()", ret := false, state := s2
            events := ev2 }
        else
          { panicMsg := none, ret := true
            state := { s2 with stopped_ := false }
            events := ev2 ++ [Event.log LogLevel.info "opened port"] }

/-- Results of the external calls the write path makes. -/
structure WriteEnv where
  sendto_nb_ok : Bool                     -- result of sendto_nb()
  uv_async_send_err : Int
deriving DecidableEq, Repr

/-- `UdpSenderPort::try_nonblocking_send_`: returns false at once when
non-blocking sends are disabled; otherwise attempts `sendto_nb` and on
success increments `sent_packets_` and logs. -/
def try_nonblocking_send_ (s : PortState) (env : WriteEnv) :
    Bool × PortState × List Event :=
  if ¬ s.config.non_blocking_enabled then (false, s, [])
  else if env.sendto_nb_ok then
    (true, { s with sent_packets_ := s.sent_packets_ + 1 },
      [Event.sendtoNbAttempt, Event.log LogLevel.trace "sent packet non-blocking"])
  else (false, s, [Event.sendtoNbAttempt])

/-- `UdpSenderPort::write_`: increments `pending_packets_`; when the packet is
the sole in-flight one, tries the fast path and on success decrements the
count back and returns; otherwise appends to the queue and signals the wakeup
handle, panicking if `uv_async_send` fails. -/
def write_ (s : PortState) (env : WriteEnv) (pp : Packet) : Outcome Unit :=
  let s1 := { s with pending_packets_ := s.pending_packets_ + 1 }
  let had_pending := s1.pending_packets_ > 1
  let fast : Bool × PortState × List Event :=
    if ¬ had_pending then try_nonblocking_send_ s1 env
    else (false, s1, [])
  if fast.1 then
    { panicMsg := none, ret := ()
      state := { fast.2.1 with pending_packets_ := fast.2.1.pending_packets_ - 1 }
      events := fast.2.2 }
  else
    let s2 := { fast.2.1 with queue_ := fast.2.1.queue_ ++ [pp] }
    if env.uv_async_send_err ≠ 0 then
      { panicMsg := some "udp sender: uv_async_send()", ret := (), state := s2
        events := fast.2.2 ++ [Event.pushQueue] }
    else
      { panicMsg := none, ret := (), state := s2
        events := fast.2.2 ++ [Event.pushQueue, Event.wakeupSignal] }

/-- The ratio displayed by `report_stats_`, over ℚ in place of double:
`sent_packets_ / sent_packets_nb` guarded by `sent_packets_nb != 0`, else 0. -/
def nb_ratio (sent_packets sent_packets_blk : Int) : ℚ :=
  let sent_packets_nb := sent_packets - sent_packets_blk
  if sent_packets_nb ≠ 0 then (sent_packets : ℚ) / (sent_packets_nb : ℚ) else 0

/-- `UdpSenderPort::report_stats_`: when the rate limiter allows, logs the
total, the derived non-blocking count and the guarded ratio.  State is
unchanged. -/
def report_stats_ (s : PortState) (allow : Bool) : List Event :=
  if allow then
    [Event.statsReport s.sent_packets_ (s.sent_packets_ - s.sent_packets_blk_)
      (nb_ratio s.sent_packets_ s.sent_packets_blk_)]
  else []

/-- `UdpSenderPort::write`: the four contract checks (null packet, non-UDP
packet, packet without data, stopped port), each a `roc_panic`; then
`write_` followed by `report_stats_`. -/
def write (s : PortState) (env : WriteEnv) (allow : Bool) (pp : Option Packet) :
    Outcome Unit :=
  match pp with
  | none =>
    { panicMsg := some "udp sender: unexpected null packet", ret := ()
      state := s, events := [] }
  | some p =>
    if ¬ p.hasUdp then
      { panicMsg := some "udp sender: unexpected non-udp packet", ret := ()
        state := s, events := [] }
    else if p.data.isNone then
      { panicMsg := some "udp sender: unexpected packet w/o data", ret := ()
        state := s, events := [] }
    else if s.stopped_ then
      { panicMsg := some "udp sender: attempt to use stopped sender", ret := ()
        state := s, events := [] }
    else
      let r := write_ s env p
      match r.panicMsg with
      | some _ => r
      | none => { r with events := r.events ++ report_stats_ r.state allow }

/-- `UdpSenderPort::fully_closed_`: true when both handles are uninitialized,
or when the terminal `closed_` flag is set. -/
def fully_closed_ (s : PortState) : Bool :=
  if ¬ s.handle_initialized_ ∧ ¬ s.write_sem_initialized_ then true
  else if s.closed_ then true
  else false

/-- `UdpSenderPort::start_closing_`: no-op when already fully closed; for each
handle still initialized and not already closing, requests its asynchronous
close. -/
def start_closing_ (s : PortState) : PortState × List Event :=
  if fully_closed_ s then (s, [])
  else
    let r1 : PortState × List Event :=
      if s.handle_initialized_ ∧ ¬ s.handle_closing then
        ({ s with handle_closing := true },
          [Event.log LogLevel.info "closing port", Event.uvClose HandleId.socket])
      else (s, [])
    if r1.1.write_sem_initialized_ ∧ ¬ r1.1.write_sem_closing then
      ({ r1.1 with write_sem_closing := true },
        r1.2 ++ [Event.uvClose HandleId.wakeup])
    else r1

/-- `UdpSenderPort::async_close`: panics when called twice; records the
handler and sets `stopped_`; returns false when already fully closed; starts
the close protocol at once only when no packets are pending. -/
def async_close (s : PortState) : Outcome Bool :=
  if s.close_handler_ then
    { panicMsg := some "udp sender: cannot call async_close() twice"
      ret := false, state := s, events := [] }
  else
    let s1 := { s with close_handler_ := true, stopped_ := true }
    if fully_closed_ s1 then
      { panicMsg := none, ret := false, state := s1, events := [] }
    else if s1.pending_packets_ = 0 then
      { panicMsg := none, ret := true, state := (start_closing_ s1).1
        events := (start_closing_ s1).2 }
    else
      { panicMsg := none, ret := true, state := s1, events := [] }

/-- `UdpSenderPort::close_cb_`: marks the handle whose close completed as
uninitialized; returns while the other is still initialized; once both are
down, sets `closed_` and invokes the close handler (after the
`roc_panic_if_not(close_handler_)` check). -/
def close_cb_ (s : PortState) (h : HandleId) : Outcome Unit :=
  let s1 :=
    match h with
    | HandleId.socket => { s with handle_initialized_ := false }
    | HandleId.wakeup => { s with write_sem_initialized_ := false }
  if s1.handle_initialized_ ∨ s1.write_sem_initialized_ then
    { panicMsg := none, ret := (), state := s1, events := [] }
  else if ¬ s1.close_handler_ then
    { panicMsg := some "roc_panic_if_not(close_handler_)", ret := ()
      state := s1, events := [Event.log LogLevel.info "closed port"] }
  else
    { panicMsg := none, ret := (), state := { s1 with closed_ := true }
      events := [Event.log LogLevel.info "closed port", Event.handlerInvoked] }

/-- The error log `send_cb_` emits when the completion status is negative. -/
def sendErrEv (status : Int) : List Event :=
  if status < 0 then [Event.log LogLevel.error "cannot send packet"] else []

/-- `UdpSenderPort::send_cb_`: checks the packet still holds the extra
reference, releases it, logs a negative status, decrements
`pending_packets_`, and when the count reaches zero on a stopped port starts
the close protocol. -/
def send_cb_ (s : PortState) (pp : Packet) (status : Int) : Outcome Unit :=
  if pp.refcount < 2 then
    { panicMsg := some "roc_panic_if(getref() < 2)", ret := (), state := s
      events := [] }
  else
    let s1 := { s with pending_packets_ := s.pending_packets_ - 1 }
    if s1.pending_packets_ = 0 ∧ s1.stopped_ then
      { panicMsg := none, ret := (), state := (start_closing_ s1).1
        events := sendErrEv status ++ (start_closing_ s1).2 }
    else
      { panicMsg := none, ret := (), state := s1, events := sendErrEv status }

/-- The head of the per-packet `uv_udp_send` result list, 0 when
exhausted. -/
def nextErr : List Int → Int
  | [] => 0
  | e :: _ => e

/-- The body of the drain loop of `write_sem_cb_`, one iteration per queued
packet: the head of `errs` is the result `uv_udp_send` returns for that
packet (0 when `errs` is exhausted).  Returns the number of packets
processed, the events, and the list of in-flight packets (those whose send
was issued, each carrying the extra reference taken by `incref`). -/
def drainLoop : List Packet → List Int → Int × List Event × List Packet
  | [], _ => (0, [], [])
  | pp :: rest, errs =>
    let err := nextErr errs
    let r := drainLoop rest errs.tail
    if err ≠ 0 then
      (r.1 + 1,
        Event.log LogLevel.trace "sending packet"
          :: Event.log LogLevel.error "uv_udp_send()" :: r.2.1,
        r.2.2)
    else
      (r.1 + 1,
        Event.log LogLevel.trace "sending packet" :: Event.incref :: r.2.1,
        { pp with refcount := pp.refcount + 1 } :: r.2.2)

/-- `UdpSenderPort::write_sem_cb_`: drains the queue, incrementing
`sent_packets_` and `sent_packets_blk_` per packet; a synchronous
`uv_udp_send` failure is logged and the loop continues. -/
def write_sem_cb_ (s : PortState) (errs : List Int) :
    PortState × List Event × List Packet :=
  let r := drainLoop s.queue_ errs
  ({ s with
      queue_ := []
      sent_packets_ := s.sent_packets_ + r.1
      sent_packets_blk_ := s.sent_packets_blk_ + r.1 },
    r.2.1, r.2.2)

/-- The other member of the pair of handles. -/
def otherHandle : HandleId → HandleId
  | HandleId.socket => HandleId.wakeup
  | HandleId.wakeup => HandleId.socket

/-- The initialized flag of a given handle. -/
def flagOf (s : PortState) : HandleId → Bool
  | HandleId.socket => s.handle_initialized_
  | HandleId.wakeup => s.write_sem_initialized_

/-- The state with a given handle's initialized flag cleared and every other
field untouched. -/
def clearFlag (s : PortState) : HandleId → PortState
  | HandleId.socket => { s with handle_initialized_ := false }
  | HandleId.wakeup => { s with write_sem_initialized_ := false }

/-- The state `async_close` reaches before its checks: close handler
recorded, `stopped_` set. -/
def setClosing (s : PortState) : PortState :=
  { s with close_handler_ := true, stopped_ := true }

/-- The state `send_cb_` reaches after decrementing the pending count. -/
def decPending (s : PortState) : PortState :=
  { s with pending_packets_ := s.pending_packets_ - 1 }

/-- Discriminator for the two bind-attempt events. -/
def isBindEvent : Event → Bool
  | Event.bindIpv6Only => true
  | Event.bindAny => true
  | _ => false

/-! ## Concrete fixtures for the witnesses -/

/-- IPv4 configuration, broadcast and non-blocking sends disabled. -/
def cfgW : UdpSenderConfig :=
  { bind_address := { family := AddrFamily.ipv4, slen := 16 }
    broadcast_enabled := false
    non_blocking_enabled := false }

/-- Same as `cfgW` with non-blocking sends enabled. -/
def cfgWnb : UdpSenderConfig := { cfgW with non_blocking_enabled := true }

/-- A freshly opened port with configuration `cfgW`. -/
def sW : PortState :=
  { UdpSenderPort.init cfgW with
      write_sem_initialized_ := true
      handle_initialized_ := true
      stopped_ := false }

/-- A freshly opened port with non-blocking sends enabled. -/
def sWnb : PortState := { sW with config := cfgWnb }

/-- A valid outbound packet. -/
def pW : Packet := { hasUdp := true, data := some [1, 2], refcount := 2 }

/-- A write environment where every external call succeeds. -/
def envW : WriteEnv := { sendto_nb_ok := true, uv_async_send_err := 0 }

/-- An open environment where every external call succeeds. -/
def envO : OpenEnv :=
  { uv_async_init_err := 0
    uv_udp_init_err := 0
    bind_ipv6only_err := 0
    bind_any_err := 0
    set_broadcast_err := 0
    getsockname_err := 0
    getsockname_len := 16
    uv_fileno_err := 0 }

/-! ## Helper lemmas -/

/-- `start_closing_` never touches `stopped_`. -/
lemma start_closing_stopped (s : PortState) :
    (start_closing_ s).1.stopped_ = s.stopped_ := by
  simp only [start_closing_]
  split_ifs <;> rfl

/-- `start_closing_` never touches `pending_packets_`. -/
lemma start_closing_pending (s : PortState) :
    (start_closing_ s).1.pending_packets_ = s.pending_packets_ := by
  simp only [start_closing_]
  split_ifs <;> rfl

/-- Any `write` on a stopped port panics with the stopped-sender message when
the packet passes the packet-shape checks. -/
lemma write_stopped_msg (s : PortState) (env : WriteEnv) (allow : Bool)
    (p : Packet) (hs : s.stopped_ = true) (h1 : p.hasUdp = true)
    (h2 : p.data.isSome = true) :
    (write s env allow (some p)).panicMsg =
      some "udp sender: attempt to use stopped sender" := by
  have hd : p.data ≠ none := Option.isSome_iff_ne_none.mp h2
  simp only [write]
  simp [hs, h1, Option.isNone_iff_eq_none, hd]

/-- Any `write` on a stopped port panics, whatever the packet argument. -/
lemma write_stopped_panics (s : PortState) (env : WriteEnv) (allow : Bool)
    (pp : Option Packet) (hs : s.stopped_ = true) :
    (write s env allow pp).panicMsg ≠ none := by
  match pp with
  | none => simp [write]
  | some p =>
    by_cases h1 : p.hasUdp = true
    · by_cases h2 : p.data.isSome = true
      · rw [write_stopped_msg s env allow p hs h1 h2]; simp
      · have hd : p.data = none := Option.not_isSome_iff_eq_none.mp h2
        simp [write, h1, hd]
    · simp [write, h1]

/-- A successful `uv_async_send` means `write_` itself never panics. -/
lemma write__no_panic (s : PortState) (env : WriteEnv) (pp : Packet)
    (h : env.uv_async_send_err = 0) :
    (write_ s env pp).panicMsg = none := by
  simp only [write_, try_nonblocking_send_]
  split_ifs <;> simp_all

/-- When the packet-shape and stopped checks pass, `write`'s panic behaviour
is that of `write_`. -/
lemma write_panicMsg_of_valid (s : PortState) (env : WriteEnv) (allow : Bool)
    (p : Packet) (h1 : p.hasUdp = true) (h2 : p.data.isSome = true)
    (h3 : s.stopped_ = false) :
    (write s env allow (some p)).panicMsg = (write_ s env p).panicMsg := by
  have hd : p.data ≠ none := Option.isSome_iff_ne_none.mp h2
  simp only [write]
  simp only [h1, h3, Option.isNone_iff_eq_none, hd, Bool.true_eq_false,
    if_false, ite_false, Bool.false_eq_true]
  rcases hm : (write_ s env p).panicMsg with _ | m <;> simp [hm]

/-! ## Claim theorems -/

/-- C10: the stats reporter never divides by zero — the displayed
non-blocking ratio is computed as a quotient only when the derived
non-blocking count (total sent minus blocking sent) is nonzero, and is 0
otherwise, for every pair of counter values. -/
theorem c10_nb_ratio_guarded (sent blk : Int) :
    (sent - blk = 0 → nb_ratio sent blk = 0) ∧
    (sent - blk ≠ 0 →
      nb_ratio sent blk = (sent : ℚ) / ((sent - blk : Int) : ℚ)) := by
  constructor <;> intro h <;> simp [nb_ratio, h]

theorem c10_witness :
    ((5 : Int) - 5 = 0 ∧ nb_ratio 5 5 = 0) ∧
    ((6 : Int) - 3 ≠ 0 ∧
      nb_ratio 6 3 = ((6 : Int) : ℚ) / (((6 : Int) - 3 : Int) : ℚ)) :=
  ⟨⟨by decide, (c10_nb_ratio_guarded 5 5).1 (by decide)⟩,
    ⟨by decide, (c10_nb_ratio_guarded 6 3).2 (by decide)⟩⟩

/-- C6: `write` panics on a null packet, a non-UDP packet, a packet without
payload data, and a stopped port; under the conjunction of the four
preconditions (and a functioning wakeup handle) no fatal branch is reached
and the call completes. -/
theorem c6_write_contract (s : PortState) (env : WriteEnv) (allow : Bool) :
    ((write s env allow none).panicMsg =
      some "udp sender: unexpected null packet") ∧
    (∀ p : Packet, p.hasUdp = false →
      (write s env allow (some p)).panicMsg =
        some "udp sender: unexpected non-udp packet") ∧
    (∀ p : Packet, p.hasUdp = true → p.data = none →
      (write s env allow (some p)).panicMsg =
        some "udp sender: unexpected packet w/o data") ∧
    (∀ p : Packet, p.hasUdp = true → p.data.isSome = true → s.stopped_ = true →
      (write s env allow (some p)).panicMsg =
        some "udp sender: attempt to use stopped sender") ∧
    (∀ p : Packet, p.hasUdp = true → p.data.isSome = true → s.stopped_ = false →
      env.uv_async_send_err = 0 →
      (write s env allow (some p)).panicMsg = none) := by
  refine ⟨by simp [write], ?_, ?_, ?_, ?_⟩
  · intro p h1
    simp [write, h1]
  · intro p h1 h2
    simp [write, h1, h2]
  · intro p h1 h2 h3
    exact write_stopped_msg s env allow p h3 h1 h2
  · intro p h1 h2 h3 h4
    rw [write_panicMsg_of_valid s env allow p h1 h2 h3]
    exact write__no_panic s env p h4

/-- C7: a second `async_close` on the same port panics, and any `write`
after `async_close` has been requested panics (the successor state is
stopped, and every `write` on a stopped port hits a fatal check). -/
theorem c7_close_twice_write_after_close (s : PortState) :
    (s.close_handler_ = true →
      (async_close s).panicMsg =
        some "udp sender: cannot call async_close() twice") ∧
    (s.close_handler_ = false →
      (async_close s).state.stopped_ = true ∧
      ∀ (env : WriteEnv) (allow : Bool) (pp : Option Packet),
        (write (async_close s).state env allow pp).panicMsg ≠ none) := by
  constructor
  · intro h
    simp [async_close, h]
  · intro h
    have hs : (async_close s).state.stopped_ = true := by
      simp only [async_close, h, Bool.false_eq_true, if_false]
      split_ifs <;> simp_all [start_closing_stopped]
    exact ⟨hs, fun env allow pp => write_stopped_panics _ env allow pp hs⟩

set_option maxHeartbeats 1000000 in
/-- C9: the port is constructed stopped; `open` clears `stopped_` only when
it returns success and leaves it unchanged on failure; and a `write` on any
stopped port (in particular before `open`, or after a failed `open`) hits
the same fatal stopped-sender check as a `write` after close. -/
theorem c9_constructed_stopped (cfg : UdpSenderConfig) (s : PortState)
    (env : OpenEnv) :
    (UdpSenderPort.init cfg).stopped_ = true ∧
    ((openPort s env).ret = true → (openPort s env).state.stopped_ = false) ∧
    ((openPort s env).ret = false → (openPort s env).state.stopped_ = s.stopped_) ∧
    (∀ (s2 : PortState) (env2 : WriteEnv) (allow : Bool) (p : Packet),
      s2.stopped_ = true → p.hasUdp = true → p.data.isSome = true →
      (write s2 env2 allow (some p)).panicMsg =
        some "udp sender: attempt to use stopped sender") := by
  refine ⟨rfl, ?_, ?_,
    fun s2 env2 allow p hs h1 h2 => write_stopped_msg s2 env2 allow p hs h1 h2⟩
  · simp only [openPort]
    split_ifs <;> intro h <;> first | rfl | simp at h
  · simp only [openPort]
    split_ifs <;> intro h <;> first | rfl | simp at h

theorem c6_witness : (write sW envW false (some pW)).panicMsg = none :=
  ((c6_write_contract sW envW false).2.2.2.2) pW (by decide) (by decide)
    (by decide) (by decide)

theorem c7_witness :
    (async_close { sW with close_handler_ := true }).panicMsg =
      some "udp sender: cannot call async_close() twice" :=
  (c7_close_twice_write_after_close { sW with close_handler_ := true }).1
    (by decide)

theorem c9_witness :
    (write (UdpSenderPort.init cfgW) envW false (some pW)).panicMsg =
      some "udp sender: attempt to use stopped sender" :=
  ((c9_constructed_stopped cfgW (UdpSenderPort.init cfgW) envO).2.2.2)
    (UdpSenderPort.init cfgW) envW false pW (by decide) (by decide) (by decide)

/-- Totals of the drain loop: every queued packet is processed (the loop
never stops early), each one either logs a send-issue error or takes exactly
one extra reference, and the loop never requests a handle close nor invokes
the close handler. -/
lemma drainLoop_spec (q : List Packet) (errs : List Int) :
    (drainLoop q errs).1 = q.length ∧
    (∀ hid : HandleId, Event.uvClose hid ∉ (drainLoop q errs).2.1) ∧
    Event.handlerInvoked ∉ (drainLoop q errs).2.1 ∧
    (drainLoop q errs).2.1.count (Event.log LogLevel.error "uv_udp_send()") +
      (drainLoop q errs).2.2.length = q.length ∧
    (drainLoop q errs).2.1.count Event.incref =
      (drainLoop q errs).2.2.length := by
  induction q generalizing errs with
  | nil => simp [drainLoop]
  | cons pp rest ih =>
    obtain ⟨ih1, ih2, ih3, ih4, ih5⟩ := ih errs.tail
    by_cases he : nextErr errs = 0 <;> refine ⟨?_, ?_, ?_, ?_, ?_⟩
    · simp [drainLoop, he, ih1]
    · intro hid
      simp [drainLoop, he, ih2 hid]
    · simp [drainLoop, he, ih3]
    · simp [drainLoop, he, List.count_cons]
      omega
    · simp [drainLoop, he, List.count_cons, ih5]
    · simp [drainLoop, he, ih1]
    · intro hid
      simp [drainLoop, he, ih2 hid]
    · simp [drainLoop, he, ih3]
    · simp [drainLoop, he, List.count_cons]
      omega
    · simp [drainLoop, he, List.count_cons, ih5]

/-- C5: in the drain loop, a synchronous send-issue failure is logged and
the packet is dropped with no extra reference, the pending count is left
untouched by the loop, every queued packet is still processed (the loop never
terminates early), and the loop never closes the port: each of the
`s.queue_.length` packets either produces one send-issue error log or joins
the in-flight list with exactly one extra reference taken. -/
theorem c5_drain_failure_contained (s : PortState) (errs : List Int) :
    (write_sem_cb_ s errs).1.pending_packets_ = s.pending_packets_ ∧
    (write_sem_cb_ s errs).1.queue_ = [] ∧
    (write_sem_cb_ s errs).1.stopped_ = s.stopped_ ∧
    (write_sem_cb_ s errs).1.closed_ = s.closed_ ∧
    (write_sem_cb_ s errs).1.handle_initialized_ = s.handle_initialized_ ∧
    (write_sem_cb_ s errs).1.write_sem_initialized_ = s.write_sem_initialized_ ∧
    (∀ hid : HandleId, Event.uvClose hid ∉ (write_sem_cb_ s errs).2.1) ∧
    Event.handlerInvoked ∉ (write_sem_cb_ s errs).2.1 ∧
    (write_sem_cb_ s errs).2.1.count (Event.log LogLevel.error "uv_udp_send()") +
      (write_sem_cb_ s errs).2.2.length = s.queue_.length ∧
    (write_sem_cb_ s errs).2.1.count Event.incref =
      (write_sem_cb_ s errs).2.2.length := by
  obtain ⟨h1, h2, h3, h4, h5⟩ := drainLoop_spec s.queue_ errs
  exact ⟨rfl, rfl, rfl, rfl, rfl, rfl, h2, h3, h4, h5⟩

theorem c5_witness :
    (write_sem_cb_ { sW with queue_ := [pW, pW] } [-1, 0]).2.1.count
        (Event.log LogLevel.error "uv_udp_send()") +
      (write_sem_cb_ { sW with queue_ := [pW, pW] } [-1, 0]).2.2.length =
      ({ sW with queue_ := [pW, pW] } : PortState).queue_.length :=
  (c5_drain_failure_contained { sW with queue_ := [pW, pW] }
    [-1, 0]).2.2.2.2.2.2.2.2.1

/-- C1: `write_` attempts the non-blocking fast path exactly when the
configuration enables it and the pending count was 0 immediately before the
call; when attempted and successful, the pending count is decremented back to
its prior value, the packet is never appended to the queue and no wakeup is
signalled (and no panic occurs). -/
theorem c1_fast_path_iff (s : PortState) (env : WriteEnv) (pp : Packet)
    (h : 0 ≤ s.pending_packets_) :
    ((Event.sendtoNbAttempt ∈ (write_ s env pp).events) ↔
      (s.config.non_blocking_enabled = true ∧ s.pending_packets_ = 0)) ∧
    (s.config.non_blocking_enabled = true → s.pending_packets_ = 0 →
      env.sendto_nb_ok = true →
      (write_ s env pp).panicMsg = none ∧
      (write_ s env pp).state.pending_packets_ = s.pending_packets_ ∧
      (write_ s env pp).state.queue_ = s.queue_ ∧
      Event.pushQueue ∉ (write_ s env pp).events ∧
      Event.wakeupSignal ∉ (write_ s env pp).events) := by
  by_cases hp : s.pending_packets_ = 0
  · by_cases hnb : s.config.non_blocking_enabled = true
    · by_cases hok : env.sendto_nb_ok = true
      · constructor
        · simp [write_, try_nonblocking_send_, hp, hnb, hok]
        · intro _ _ _
          refine ⟨?_, ?_, ?_, ?_, ?_⟩ <;>
            simp [write_, try_nonblocking_send_, hp, hnb, hok]
      · constructor
        · simp only [write_, try_nonblocking_send_, hp, hnb, hok]
          simp [hnb, hp]
          split <;> simp
        · intro _ _ hok2
          exact absurd hok2 hok
    · constructor
      · simp only [write_, try_nonblocking_send_]
        simp [hnb, hp]
        split <;> simp [hnb]
      · intro hnb2
        exact absurd hnb2 hnb
  · have hgt : s.pending_packets_ + 1 > 1 := by omega
    constructor
    · simp only [write_, try_nonblocking_send_]
      simp [hgt, hp]
      split <;> simp [hp]
    · intro _ hp2
      exact absurd hp2 hp

theorem c1_witness : Event.sendtoNbAttempt ∈ (write_ sWnb envW pW).events :=
  ((c1_fast_path_iff sWnb envW pW (by decide)).1).mpr (by decide)

/-- C2: each invocation of the shared close-completion callback clears
exactly the completed resource's initialized flag and returns with no effect
while the other resource is still initialized; only when both flags are down
does it set `closed_` and invoke the registered close handler, and over the
two completions of an open port the handler is invoked exactly once. -/
theorem c2_close_cb_once (s : PortState) (hch : s.close_handler_ = true) :
    (∀ h : HandleId,
      (close_cb_ s h).panicMsg = none ∧
      flagOf (close_cb_ s h).state h = false ∧
      flagOf (close_cb_ s h).state (otherHandle h) = flagOf s (otherHandle h) ∧
      (flagOf s (otherHandle h) = true →
        (close_cb_ s h).state = clearFlag s h ∧ (close_cb_ s h).events = []) ∧
      (flagOf s (otherHandle h) = false →
        (close_cb_ s h).state.closed_ = true ∧
        (close_cb_ s h).events.count Event.handlerInvoked = 1)) ∧
    (∀ h1 h2 : HandleId, h1 ≠ h2 →
      s.handle_initialized_ = true → s.write_sem_initialized_ = true →
      (close_cb_ s h1).events.count Event.handlerInvoked +
        (close_cb_ (close_cb_ s h1).state h2).events.count Event.handlerInvoked
          = 1 ∧
      (close_cb_ (close_cb_ s h1).state h2).state.closed_ = true ∧
      (close_cb_ (close_cb_ s h1).state h2).panicMsg = none) := by
  constructor
  · rintro (_ | _)
    · by_cases hw : s.write_sem_initialized_ = true
      · refine ⟨?_, ?_, ?_, ?_, ?_⟩ <;>
          simp [close_cb_, flagOf, otherHandle, clearFlag, hch, hw]
      · refine ⟨?_, ?_, ?_, ?_, ?_⟩ <;>
          simp [close_cb_, flagOf, otherHandle, clearFlag, hch, hw,
            List.count_cons]
    · by_cases hh : s.handle_initialized_ = true
      · refine ⟨?_, ?_, ?_, ?_, ?_⟩ <;>
          simp [close_cb_, flagOf, otherHandle, clearFlag, hch, hh]
      · refine ⟨?_, ?_, ?_, ?_, ?_⟩ <;>
          simp [close_cb_, flagOf, otherHandle, clearFlag, hch, hh,
            List.count_cons]
  · rintro (_ | _) (_ | _) hne hh hw
    · exact absurd rfl hne
    · refine ⟨?_, ?_, ?_⟩ <;>
        simp [close_cb_, hch, hh, hw, List.count_cons]
    · refine ⟨?_, ?_, ?_⟩ <;>
        simp [close_cb_, hch, hh, hw, List.count_cons]
    · exact absurd rfl hne

theorem c2_witness :
    (close_cb_ { sW with close_handler_ := true } HandleId.socket).events.count
        Event.handlerInvoked +
      (close_cb_ (close_cb_ { sW with close_handler_ := true }
          HandleId.socket).state HandleId.wakeup).events.count
        Event.handlerInvoked = 1 :=
  ((c2_close_cb_once { sW with close_handler_ := true } (by decide)).2
    HandleId.socket HandleId.wakeup (by decide) (by decide) (by decide)).1

/-- C3: `async_close` sets `stopped_`; when the port is already fully closed
it returns false without starting the close protocol; otherwise it returns
true and starts the close protocol at once exactly when no packets are
pending; with packets pending, the close protocol is started by the
send-completion callback that observes `stopped_` and the pending count
reaching 0. -/
theorem c3_async_close_defer (s : PortState) (h : s.close_handler_ = false) :
    ((async_close s).panicMsg = none ∧
      (async_close s).state.stopped_ = true ∧
      (fully_closed_ (setClosing s) = true →
        (async_close s).ret = false ∧
        (async_close s).state = setClosing s ∧ (async_close s).events = []) ∧
      (fully_closed_ (setClosing s) = false →
        (async_close s).ret = true ∧
        (s.pending_packets_ = 0 →
          (async_close s).state = (start_closing_ (setClosing s)).1 ∧
          (async_close s).events = (start_closing_ (setClosing s)).2) ∧
        (s.pending_packets_ ≠ 0 →
          (async_close s).state = setClosing s ∧
          (async_close s).events = []))) ∧
    (∀ (s2 : PortState) (pp : Packet) (status : Int), ¬pp.refcount < 2 →
      (send_cb_ s2 pp status).panicMsg = none ∧
      ((decPending s2).pending_packets_ = 0 ∧ s2.stopped_ = true →
        (send_cb_ s2 pp status).state = (start_closing_ (decPending s2)).1 ∧
        (send_cb_ s2 pp status).events =
          sendErrEv status ++ (start_closing_ (decPending s2)).2) ∧
      (¬((decPending s2).pending_packets_ = 0 ∧ s2.stopped_ = true) →
        (send_cb_ s2 pp status).state = decPending s2 ∧
        (send_cb_ s2 pp status).events = sendErrEv status)) := by
  constructor
  · by_cases hf : fully_closed_ (setClosing s) = true
    · refine ⟨?_, ?_, ?_, ?_⟩ <;>
        simp_all [async_close, setClosing, h]
    · by_cases hp : s.pending_packets_ = 0
      · refine ⟨?_, ?_, ?_, ?_⟩ <;>
          simp_all [async_close, setClosing, h, start_closing_stopped]
      · refine ⟨?_, ?_, ?_, ?_⟩ <;>
          simp_all [async_close, setClosing, h]
  · intro s2 pp status hrc
    refine ⟨?_, ?_, ?_⟩
    · simp only [send_cb_]
      rw [if_neg hrc]
      split <;> rfl
    · intro hcond
      simp only [send_cb_]
      rw [if_neg hrc]
      split
      · exact ⟨rfl, rfl⟩
      · rename_i hcond2
        exact absurd hcond hcond2
    · intro hcond
      simp only [send_cb_]
      rw [if_neg hrc]
      split
      · rename_i hcond2
        exact absurd hcond2 hcond
      · exact ⟨rfl, rfl⟩

theorem c3_witness : (async_close sW).ret = true :=
  (((c3_async_close_defer sW (by decide)).1).2.2.2 (by decide)).1

/-- The bind attempts of `open()`, as a function of the address family and
the IPv6-only bind result: IPv6-only first when the family is IPv6, the
plain bind exactly when no IPv6-only bind ran or it returned `UV_EINVAL` or
`UV_ENOTSUP`. -/
lemma bind_step_events (fam : AddrFamily) (env : OpenEnv) :
    (bind_step fam env).2 =
      (if fam = AddrFamily.ipv6 then [Event.bindIpv6Only] else []) ++
      (if fam ≠ AddrFamily.ipv6 ∨ env.bind_ipv6only_err = UV_EINVAL ∨
          env.bind_ipv6only_err = UV_ENOTSUP
        then [Event.bindAny] else []) := by
  cases fam
  · simp [bind_step]
  · by_cases hc : env.bind_ipv6only_err = UV_EINVAL ∨
        env.bind_ipv6only_err = UV_ENOTSUP
    · simp [bind_step, hc]
    · simp [bind_step, hc]

/-- The bind attempt list consists of bind events only. -/
lemma bind_step_filter (fam : AddrFamily) (env : OpenEnv) :
    (bind_step fam env).2.filter isBindEvent = (bind_step fam env).2 := by
  cases fam
  · simp [bind_step, isBindEvent]
  · by_cases hc : env.bind_ipv6only_err = UV_EINVAL ∨
        env.bind_ipv6only_err = UV_ENOTSUP
    · simp [bind_step, hc, isBindEvent]
    · simp [bind_step, hc, isBindEvent]

set_option maxHeartbeats 1000000 in
/-- C8: during `open`, the IPv6-only bind is attempted (first) exactly when
the configured family is IPv6; the dual/any bind is attempted exactly when
the IPv6-only attempt was not made or failed with `UV_EINVAL`/`UV_ENOTSUP`;
and when the finally attempted bind fails, `open` logs the bind step and
returns false. -/
theorem c8_bind_ipv6_fallback (s : PortState) (env : OpenEnv)
    (h1 : env.uv_async_init_err = 0) (h2 : env.uv_udp_init_err = 0) :
    ((openPort s env).events.filter isBindEvent =
      (if s.config.bind_address.family = AddrFamily.ipv6 then
        [Event.bindIpv6Only] else []) ++
      (if s.config.bind_address.family ≠ AddrFamily.ipv6 ∨
          env.bind_ipv6only_err = UV_EINVAL ∨
          env.bind_ipv6only_err = UV_ENOTSUP
        then [Event.bindAny] else [])) ∧
    ((bind_step s.config.bind_address.family env).1 ≠ 0 →
      (openPort s env).ret = false ∧ (openPort s env).panicMsg = none ∧
      Event.log LogLevel.error "uv_udp_bind()" ∈ (openPort s env).events) := by
  constructor
  · have hev : (openPort s env).events.filter isBindEvent =
        (bind_step s.config.bind_address.family env).2 := by
      have hA : ¬env.uv_async_init_err ≠ 0 := by simp [h1]
      have hB : ¬env.uv_udp_init_err ≠ 0 := by simp [h2]
      simp only [openPort, address_]
      rw [if_neg hA, if_neg hB]
      split_ifs <;>
        simp [List.filter_append, bind_step_filter, isBindEvent]
    rw [hev, bind_step_events]
  · intro hb
    refine ⟨?_, ?_, ?_⟩ <;>
      simp [openPort, address_, h1, h2, hb]

theorem c8_witness :
    (openPort (UdpSenderPort.init cfgW)
        { envO with bind_any_err := -13 }).ret = false ∧
      (openPort (UdpSenderPort.init cfgW)
        { envO with bind_any_err := -13 }).panicMsg = none ∧
      Event.log LogLevel.error "uv_udp_bind()" ∈
        (openPort (UdpSenderPort.init cfgW)
          { envO with bind_any_err := -13 }).events :=
  (c8_bind_ipv6_fallback (UdpSenderPort.init cfgW)
    { envO with bind_any_err := -13 } (by decide) (by decide)).2 (by decide)

set_option maxHeartbeats 1000000 in
/-- C4 (amended): every failure of wakeup initialization, socket
initialization, bind, broadcast option, resolved-address read-back or
resolved-length check during `open` logs the failing step and returns false
without panicking; a descriptor-retrieval (`uv_fileno`) failure, however,
panics instead of returning false. -/
theorem c4_open_failures (s : PortState) (env : OpenEnv) :
    (env.uv_async_init_err ≠ 0 →
      (openPort s env).ret = false ∧ (openPort s env).panicMsg = none ∧
      Event.log LogLevel.error "uv_async_init()" ∈ (openPort s env).events) ∧
    (env.uv_async_init_err = 0 → env.uv_udp_init_err ≠ 0 →
      (openPort s env).ret = false ∧ (openPort s env).panicMsg = none ∧
      Event.log LogLevel.error "uv_udp_init()" ∈ (openPort s env).events) ∧
    (env.uv_async_init_err = 0 → env.uv_udp_init_err = 0 →
      (bind_step s.config.bind_address.family env).1 ≠ 0 →
      (openPort s env).ret = false ∧ (openPort s env).panicMsg = none ∧
      Event.log LogLevel.error "uv_udp_bind()" ∈ (openPort s env).events) ∧
    (env.uv_async_init_err = 0 → env.uv_udp_init_err = 0 →
      (bind_step s.config.bind_address.family env).1 = 0 →
      s.config.broadcast_enabled = true → env.set_broadcast_err ≠ 0 →
      (openPort s env).ret = false ∧ (openPort s env).panicMsg = none ∧
      Event.log LogLevel.error "uv_udp_set_broadcast()" ∈
        (openPort s env).events) ∧
    (env.uv_async_init_err = 0 → env.uv_udp_init_err = 0 →
      (bind_step s.config.bind_address.family env).1 = 0 →
      ¬(s.config.broadcast_enabled = true ∧ env.set_broadcast_err ≠ 0) →
      env.getsockname_err ≠ 0 →
      (openPort s env).ret = false ∧ (openPort s env).panicMsg = none ∧
      Event.log LogLevel.error "uv_udp_getsockname()" ∈
        (openPort s env).events) ∧
    (env.uv_async_init_err = 0 → env.uv_udp_init_err = 0 →
      (bind_step s.config.bind_address.family env).1 = 0 →
      ¬(s.config.broadcast_enabled = true ∧ env.set_broadcast_err ≠ 0) →
      env.getsockname_err = 0 →
      env.getsockname_len ≠ s.config.bind_address.slen →
      (openPort s env).ret = false ∧ (openPort s env).panicMsg = none ∧
      Event.log LogLevel.error "uv_udp_getsockname(): unexpected len" ∈
        (openPort s env).events) ∧
    (env.uv_async_init_err = 0 → env.uv_udp_init_err = 0 →
      (bind_step s.config.bind_address.family env).1 = 0 →
      ¬(s.config.broadcast_enabled = true ∧ env.set_broadcast_err ≠ 0) →
      env.getsockname_err = 0 →
      env.getsockname_len = s.config.bind_address.slen →
      env.uv_fileno_err ≠ 0 →
      (openPort s env).panicMsg = some "udp sender: uv_fileno()" ∧
      (openPort s env).ret = false) := by
  refine ⟨?_, ?_, ?_, ?_, ?_, ?_, ?_⟩
  · intro ha
    refine ⟨?_, ?_, ?_⟩ <;> simp [openPort, ha]
  · intro ha hu
    refine ⟨?_, ?_, ?_⟩ <;> simp [openPort, ha, hu]
  · intro ha hu hb
    refine ⟨?_, ?_, ?_⟩ <;> simp [openPort, address_, ha, hu, hb]
  · intro ha hu hb hbc hbe
    refine ⟨?_, ?_, ?_⟩ <;>
      simp [openPort, address_, ha, hu, hb, hbc, hbe]
  · intro ha hu hb hbc hg
    refine ⟨?_, ?_, ?_⟩ <;>
      simp [openPort, address_, ha, hu, hb, hbc, hg]
  · intro ha hu hb hbc hg hl
    refine ⟨?_, ?_, ?_⟩ <;>
      simp [openPort, address_, ha, hu, hb, hbc, hg, hl]
  · intro ha hu hb hbc hg hl hf
    refine ⟨?_, ?_⟩ <;>
      simp [openPort, address_, ha, hu, hb, hbc, hg, hl, hf]

/-- C4 counterexample: with every external call of `open` succeeding except
the final descriptor retrieval, `open` panics instead of logging the step and
returning false. -/
theorem c4_counterexample :
    (openPort (UdpSenderPort.init cfgW)
        { envO with uv_fileno_err := 1 }).panicMsg =
      some "udp sender: uv_fileno()" := by decide

theorem c4_witness :
    (openPort (UdpSenderPort.init cfgW)
        { envO with uv_async_init_err := -12 }).ret = false ∧
      (openPort (UdpSenderPort.init cfgW)
        { envO with uv_async_init_err := -12 }).panicMsg = none ∧
      Event.log LogLevel.error "uv_async_init()" ∈
        (openPort (UdpSenderPort.init cfgW)
          { envO with uv_async_init_err := -12 }).events :=
  (c4_open_failures (UdpSenderPort.init cfgW)
    { envO with uv_async_init_err := -12 }).1 (by decide)

end RocNetio
